import Mathlib

/-!
Shallow embedding of the cargo-android bundle pipeline and credential
resolvers.

Sources embedded here:
* `src/cargo-android/src/apk.rs` — `ApkBuilder::read_keystore_meta`;
* `src/cargo-android/src/aab.rs` — `AabBuilder::read_keystore_meta` and
  `AabBuilder::create_from_apk`;
* `src/cargo-android/src/manifest.rs` — the `Signing` entry and the
  manifest fields consumed by the pipeline.

External collaborators (the `ndk_build` crate, `std::fs`, `std::process`
and the invoked tools) are modelled at their interface boundary: the
filesystem is a tree of named nodes, `std::fs::rename` follows its
documented semantics (source absent is `NotFound`; a directory can only
replace an existing *empty* directory, otherwise the rename fails), and
each external tool invocation is driven by an oracle that supplies its
exit status, its standard-error text and — for the decompiler and the
resource linker — the tree it produces on success.  Tool archive payloads
(`include_bytes!`) are opaque build-time constants.
-/

/-- Build profile (`cargo_subcommand::Profile`, external enum matched in
`read_keystore_meta`). -/
inductive Profile where
  | dev
  | release
  | custom (name : String)

/-- Per-profile signing entry from project configuration
(`src/manifest.rs`, `struct Signing`). -/
structure Signing where
  store_path : String
  store_password : String
  key_alias : Option String
  key_password : Option String

/-- Resolved keystore credential (`ndk_build::ndk::KeystoreMeta`,
external; the shape is fixed by the use sites `key.path`,
`key.store_pass`, `key.alias`, `key.key_pass`). -/
structure KeystoreMeta where
  path : String
  store_pass : String
  «alias» : Option String
  key_pass : Option String

/-- Model of `KeystoreMeta::single(path, store_pass)` — credential with no alias
and no key password. -/
def KeystoreMeta.single (path : String) (storePass : String) : KeystoreMeta :=
  ⟨path, storePass, none, none⟩

/-- Model of `KeystoreMeta::alias` builder method. -/
def KeystoreMeta.setAlias (k : KeystoreMeta) (a : String) : KeystoreMeta :=
  { k with «alias» := some a }

/-- Model of `KeystoreMeta::key_pass` builder method. -/
def KeystoreMeta.setKeyPass (k : KeystoreMeta) (p : String) : KeystoreMeta :=
  { k with key_pass := some p }

/-- Model of `ndk_build::ndk::DEFAULT_DEV_KEYSTORE_PASSWORD` (external constant:
the fixed well-known development keystore password). -/
def DEFAULT_DEV_KEYSTORE_PASSWORD : String := "android"

/-- Model of `crate::Error` (`src/error.rs` is not among the sources; the variant
and its payload are fixed by the use sites
`Error::MissingReleaseKey(profile_name)` in `src/apk.rs` and
`src/aab.rs`, where `profile_name` is the normalized profile name). -/
inductive Error where
  | missingReleaseKey (profile : String)
deriving DecidableEq

/-- Process environment, as consulted by `std::env::var` /
`std::env::var_os` (both modelled as returning the variable's string
value when set). -/
abbrev EnvMap := String → Option String

/-- The profile name string produced by the `match self.cmd.profile()`
at the top of both `read_keystore_meta` copies. -/
def profileBaseName : Profile → String
  | .dev => "dev"
  | .release => "release"
  | .custom c => c

/-- Model of `profile_name.to_uppercase().replace('-', "_")`.  Modelled
character-wise (ASCII): uppercasing never produces `'-'`, so mapping each
character through uppercase-then-replace agrees with the source's
string-level uppercase followed by replace. -/
def normalizeProfileName (s : String) : String :=
  String.mk (s.data.map (fun c => if c.toUpper == '-' then '_' else c.toUpper))

/-- Model of `format!("CARGO_ANDROID_{profile_name}_STORE_PATH")`. -/
def storePathVar (u : String) : String := "CARGO_ANDROID_" ++ u ++ "_STORE_PATH"

/-- Model of `format!("CARGO_ANDROID_{profile_name}_STORE_PASSWORD")`. -/
def storePasswordVar (u : String) : String := "CARGO_ANDROID_" ++ u ++ "_STORE_PASSWORD"

/-- Model of `format!("CARGO_ANDROID_{profile_name}_KEY_ALIAS")`. -/
def keyAliasVar (u : String) : String := "CARGO_ANDROID_" ++ u ++ "_KEY_ALIAS"

/-- Model of `format!("CARGO_ANDROID_{profile_name}_KEY_PASSWORD")`. -/
def keyPasswordVar (u : String) : String := "CARGO_ANDROID_" ++ u ++ "_KEY_PASSWORD"

/-- Model of `Path::join` on the string model of paths. -/
def joinPath (a b : String) : String := a ++ "/" ++ b

/-- The `println!` diagnostic emitted when falling back to the default
development password. -/
def fallbackMsg (envStorePassword : String) : String :=
  envStorePassword ++ " not specified, falling back to default password"

/-- The `eprintln!` diagnostic emitted when a store path is set without a
store password outside the debug fallback. -/
def storeBothMsg (storePath envStorePath envStorePassword : String) : String :=
  "`" ++ storePath ++ "` was specified via `" ++ envStorePath ++ "`, but `" ++
    envStorePassword ++
    "` was not specified, both or neither must be present for profiles other than `dev`"

/-- The `eprintln!` diagnostic emitted when a key alias is configured
without a matching key password (the source prints the environment
variable names even in the project-configuration branch). -/
def aliasNoPassMsg (keyAlias envKeyAlias envKeyPassword : String) : String :=
  "`" ++ keyAlias ++ "` was specified via `" ++ envKeyAlias ++ "`, but `" ++
    envKeyPassword ++ "` was not specified"

/-- Result of one credential resolution: the returned
`Result<KeystoreMeta, Error>` plus the human-readable diagnostics printed
along the way (`println!` / `eprintln!`), in order. -/
structure ResolveResult where
  result : Except Error KeystoreMeta
  messages : List String

/-- Model of `ApkBuilder::read_keystore_meta` (src/apk.rs lines 268–338).
Parameters stand for the builder state it reads: the process environment,
`self.manifest.signing`, `self.cmd.profile()`, the crate path argument,
the `is_debug_profile` argument and the credential that
`self.ndk.debug_key()` would produce.  The source's early `return Err`
for a missing store password is encoded by the intermediate `Except`
before the alias/key-password pairing check. -/
def ApkBuilder.read_keystore_meta (env : EnvMap) (signing : List (String × Signing))
    (profile : Profile) (crate_path : String) (is_debug_profile : Bool)
    (debug_key : KeystoreMeta) : ResolveResult :=
  let profile_name := profileBaseName profile
  let manifest := List.lookup profile_name signing
  let profile_name := normalizeProfileName profile_name
  let env_store_path := storePathVar profile_name
  let env_store_password := storePasswordVar profile_name
  let env_key_alias := keyAliasVar profile_name
  let env_key_password := keyPasswordVar profile_name
  let store_path := env env_store_path
  let store_password := env env_store_password
  let key_alias := env env_key_alias
  let key_password := env env_key_password
  match store_path with
  | some store_path =>
    let signing_key : Except (List String × Error) (KeystoreMeta × List String) :=
      match store_password with
      | some store_password => .ok (KeystoreMeta.single store_path store_password, [])
      | none =>
        if is_debug_profile then
          .ok (KeystoreMeta.single store_path DEFAULT_DEV_KEYSTORE_PASSWORD,
            [fallbackMsg env_store_password])
        else
          .error ([storeBothMsg store_path env_store_path env_store_password],
            .missingReleaseKey profile_name)
    match signing_key with
    | .error (msgs, e) => ⟨.error e, msgs⟩
    | .ok (signing_key, msgs) =>
      match key_alias with
      | some key_alias =>
        match key_password with
        | some key_password =>
          ⟨.ok ((signing_key.setAlias key_alias).setKeyPass key_password), msgs⟩
        | none =>
          ⟨.error (.missingReleaseKey profile_name),
            msgs ++ [aliasNoPassMsg key_alias env_key_alias env_key_password]⟩
      | none => ⟨.ok signing_key, msgs⟩
  | none =>
    match manifest with
    | some signingEntry =>
      let store_path := joinPath crate_path signingEntry.store_path
      let store_password := signingEntry.store_password
      let key_alias := signingEntry.key_alias
      let key_password := signingEntry.key_password
      let signing_key := KeystoreMeta.single store_path store_password
      match key_alias with
      | some key_alias =>
        match key_password with
        | some key_password =>
          ⟨.ok ((signing_key.setAlias key_alias).setKeyPass key_password), []⟩
        | none =>
          ⟨.error (.missingReleaseKey profile_name),
            [aliasNoPassMsg key_alias env_key_alias env_key_password]⟩
      | none => ⟨.ok signing_key, []⟩
    | none =>
      if is_debug_profile then ⟨.ok debug_key, []⟩
      else ⟨.error (.missingReleaseKey profile_name), []⟩

/-- Model of `AabBuilder::read_keystore_meta` (src/aab.rs lines 229–299); the
source body is token-for-token the same as the `ApkBuilder` copy and is
translated here independently. -/
def AabBuilder.read_keystore_meta (env : EnvMap) (signing : List (String × Signing))
    (profile : Profile) (crate_path : String) (is_debug_profile : Bool)
    (debug_key : KeystoreMeta) : ResolveResult :=
  let profile_name := profileBaseName profile
  let manifest := List.lookup profile_name signing
  let profile_name := normalizeProfileName profile_name
  let env_store_path := storePathVar profile_name
  let env_store_password := storePasswordVar profile_name
  let env_key_alias := keyAliasVar profile_name
  let env_key_password := keyPasswordVar profile_name
  let store_path := env env_store_path
  let store_password := env env_store_password
  let key_alias := env env_key_alias
  let key_password := env env_key_password
  match store_path with
  | some store_path =>
    let signing_key : Except (List String × Error) (KeystoreMeta × List String) :=
      match store_password with
      | some store_password => .ok (KeystoreMeta.single store_path store_password, [])
      | none =>
        if is_debug_profile then
          .ok (KeystoreMeta.single store_path DEFAULT_DEV_KEYSTORE_PASSWORD,
            [fallbackMsg env_store_password])
        else
          .error ([storeBothMsg store_path env_store_path env_store_password],
            .missingReleaseKey profile_name)
    match signing_key with
    | .error (msgs, e) => ⟨.error e, msgs⟩
    | .ok (signing_key, msgs) =>
      match key_alias with
      | some key_alias =>
        match key_password with
        | some key_password =>
          ⟨.ok ((signing_key.setAlias key_alias).setKeyPass key_password), msgs⟩
        | none =>
          ⟨.error (.missingReleaseKey profile_name),
            msgs ++ [aliasNoPassMsg key_alias env_key_alias env_key_password]⟩
      | none => ⟨.ok signing_key, msgs⟩
  | none =>
    match manifest with
    | some signingEntry =>
      let store_path := joinPath crate_path signingEntry.store_path
      let store_password := signingEntry.store_password
      let key_alias := signingEntry.key_alias
      let key_password := signingEntry.key_password
      let signing_key := KeystoreMeta.single store_path store_password
      match key_alias with
      | some key_alias =>
        match key_password with
        | some key_password =>
          ⟨.ok ((signing_key.setAlias key_alias).setKeyPass key_password), []⟩
        | none =>
          ⟨.error (.missingReleaseKey profile_name),
            [aliasNoPassMsg key_alias env_key_alias env_key_password]⟩
      | none => ⟨.ok signing_key, []⟩
    | none =>
      if is_debug_profile then ⟨.ok debug_key, []⟩
      else ⟨.error (.missingReleaseKey profile_name), []⟩

/-- A node of the staging-area filesystem tree: a plain file, a zip/jar
archive (a file whose logical entries we track, with a flag recording
whether its entries are stored uncompressed), or a directory. -/
inductive Node where
  | file (data : String)
  | archive (stored : Bool) (entries : List (String × Node))
  | dir (entries : List (String × Node))

/-- Path lookup in a filesystem tree (paths are segment lists relative to
the staging root `aab_dir`). -/
def Node.lookupPath : Node → List String → Option Node
  | n, [] => some n
  | n, k :: p =>
    match n with
    | .dir es =>
      match List.lookup k es with
      | some c => Node.lookupPath c p
      | none => none
    | _ => none

/-- Replace the value of key `k` in a directory entry list, or append it
if absent. -/
def setEntry : List (String × Node) → String → Node → List (String × Node)
  | [], k, v => [(k, v)]
  | (k', v') :: rest, k, v =>
    if k' == k then (k, v) :: rest else (k', v') :: setEntry rest k v

/-- Write node `v` at a path, creating intermediate directories as
`std::fs::create_dir_all` would (the pipeline always creates parents
before writing; writing below a non-directory leaves the tree unchanged
and never happens in a pipeline run). -/
def Node.setPath : Node → List String → Node → Node
  | _, [], v => v
  | n, k :: p, v =>
    match n with
    | .dir es =>
      match List.lookup k es with
      | some c => .dir (setEntry es k (Node.setPath c p v))
      | none => .dir (setEntry es k (Node.setPath (.dir []) p v))
    | other => other

/-- Drop the entry with key `k` from a directory entry list. -/
def removeEntry (es : List (String × Node)) (k : String) : List (String × Node) :=
  es.filter (fun e => e.1 != k)

/-- Remove the node at a path (no-op when the path does not exist). -/
def Node.removePath : Node → List String → Node
  | n, [] => n
  | n, [k] =>
    match n with
    | .dir es => .dir (removeEntry es k)
    | other => other
  | n, k :: k2 :: p =>
    match n with
    | .dir es =>
      match List.lookup k es with
      | some c => .dir (setEntry es k (Node.removePath c (k2 :: p)))
      | none => .dir es
    | other => other

/-- Model of `std::io::ErrorKind`, restricted to what the pipeline distinguishes:
`NotFound` (tolerated for the optional moves), directory-not-empty, and
everything else. -/
inductive IoErrorKind where
  | notFound
  | notEmpty
  | other
deriving DecidableEq

/-- Model of `std::fs::rename` on the tree model, following its documented
semantics: the source must exist (`NotFound` otherwise); a missing
destination is created; a directory can replace only an existing *empty*
directory (directory-not-empty otherwise) and never a file; a file can
replace a file but not a directory. -/
def renameNode (root : Node) (src dst : List String) : Except IoErrorKind Node :=
  match root.lookupPath src with
  | none => .error .notFound
  | some n =>
    let moved := (root.removePath src).setPath dst n
    match root.lookupPath dst with
    | none => .ok moved
    | some d =>
      match n, d with
      | .dir _, .dir [] => .ok moved
      | .dir _, .dir (_ :: _) => .error .notEmpty
      | .dir _, _ => .error .other
      | _, .dir _ => .error .other
      | _, _ => .ok moved

/-- The `if let Err(err) = std::fs::rename(..) { if err.kind() !=
NotFound { return Err } }` pattern used for the optional
assets/unknown/kotlin moves: absence of the source is tolerated, any
other failure is fatal. -/
def moveTolerant (fs : Node) (src dst : List String) : Except IoErrorKind Node :=
  match renameNode fs src dst with
  | .ok f => .ok f
  | .error .notFound => .ok fs
  | .error e => .error e

/-- One external tool invocation, with the argument shape the pipeline
passes (paths are rendered relative to the staging root; the input apk
and the keystore live outside the staging root and are rendered as plain
strings). -/
inductive Invocation where
  | unpackApk (apkFile outDir : String)
  | compileRes (resDir outFile : String)
  | linkRes (outFile resZip androidJar manifestPath : String)
      (minSdk targetSdk versionCode : Nat) (versionName : String)
      (autoAddOverlay protoFormat : Bool)
  | unzipBase (destDir zipFile : String)
  | jarCreate (flags outFile : String) (names : List String)
  | buildBundle (modulesFile outFile : String)
  | signJar (sigalg digestalg keystore storepass keypass signedFile inputFile aliasArg : String)

/-- Errors `create_from_apk` can return: a failed tool invocation
(`anyhow!("<stage message>: {stderr}")`, modelled as the stage message
plus the captured stderr), a staging-area filesystem failure propagated
by `?`, or the credential-resolution error propagated by `?`. -/
inductive PipelineError where
  | toolFailed (stage stderr : String)
  | ioError (kind : IoErrorKind)
  | missingReleaseKey (profile : String)

/-- The fields of `crate::manifest::Manifest` that `create_from_apk`
consumes (`min_sdk_version` / `target_sdk_version` are
`manifest.android_manifest.sdk.*` in the source, flattened here). -/
structure Manifest where
  apk_name : Option String
  min_sdk_version : Option Nat
  target_sdk_version : Option Nat
  version_code : Option Nat
  version_name : Option String
  signing : List (String × Signing)

/-- Behaviour of the external tools for one pipeline run: exit status and
captured stderr of each invocation, the tree the decompiler produces, the
compiled-resource payload, and the entries of the linked archive
`base.zip` (resource table, linked `res/` tree and the processed
manifest). -/
structure Oracle where
  unpackOk : Bool
  unpackErr : String
  unpackedTree : Node
  compileOk : Bool
  compileErr : String
  resZipData : String
  linkOk : Bool
  linkErr : String
  linkedEntries : List (String × Node)
  unzipOk : Bool
  unzipErr : String
  jarOk : Bool
  jarErr : String
  bundletoolOk : Bool
  bundletoolErr : String
  signOk : Bool
  signErr : String

/-- Pipeline state: the staging-root tree and the trace of tool
invocations made so far. -/
structure St where
  fs : Node
  trace : List Invocation

/-- Outcome of a pipeline prefix: `Ok(())` or the aborting error, always
together with the staging state reached (completed stages' artifacts stay
on disk — there is no rollback). -/
abbrev StepResult := Except PipelineError Unit × St

/-- Sequencing of pipeline stages: stop at the first error, keeping the
state reached. -/
def andThen (r : StepResult) (f : St → StepResult) : StepResult :=
  match r.1 with
  | .error _ => r
  | .ok _ => f r.2

/-- What `Command::output()` hands back as stderr: the captured stream,
unless the child was explicitly configured with `Stdio::inherit()` (as
the jarsigner invocation is), in which case nothing is captured and the
collected stderr is empty. -/
def capturedStderr (inheritStderr : Bool) (s : String) : String :=
  if inheritStderr then "" else s

/-- One `Command::output()` call followed by the `if
!output.status.success() { return Err(anyhow!(...)) }` check: the
invocation is recorded, the effect applies on success, and on failure the
stage message plus the captured stderr is returned. -/
def stepTool (okFlag : Bool) (stderrTxt : String) (inheritStderr : Bool)
    (stageMsg : String) (inv : Invocation) (effect : Node → Node) (s : St) : StepResult :=
  let s1 : St := ⟨s.fs, s.trace ++ [inv]⟩
  if okFlag then (.ok (), ⟨effect s1.fs, s1.trace⟩)
  else (.error (.toolFailed stageMsg (capturedStderr inheritStderr stderrTxt)), s1)

/-- Stage 1 (src/aab.rs lines 49–59): `create_dir_all(&aab_dir)` followed
by removing every entry whose name is not `"tools"`.  `prior` is the
entry list of the staging root from the previous run (`[]` when the root
did not exist). -/
def resetStaging (prior : List (String × Node)) : Node :=
  .dir (prior.filter (fun e => e.1 == "tools"))

/-- The `include_bytes!("../tools/apktool-2.8.1.jar")` build-time
constant (opaque payload). -/
def APK_TOOL_DATA : String := "apktool-2.8.1.jar embedded payload"

/-- The `include_bytes!("../tools/bundletool-1.15.4.jar")` build-time
constant (opaque payload). -/
def BUNDLE_TOOL_DATA : String := "bundletool-1.15.4.jar embedded payload"

/-- Stage 2 (src/aab.rs lines 61–68): `create_dir_all(tools)` and
unconditional `fs::write` of the two embedded tool archives. -/
def writeTools (fs : Node) : Node :=
  (fs.setPath ["tools", "apktool-2.8.1.jar"] (.file APK_TOOL_DATA)).setPath
    ["tools", "bundletool-1.15.4.jar"] (.file BUNDLE_TOOL_DATA)

/-- The input package file name: `format!("{name}.apk")` for a configured
`apk_name`, else `"app.apk"`. -/
def apkFileName (m : Manifest) : String :=
  match m.apk_name with
  | some name => name ++ ".apk"
  | none => "app.apk"

/-- Model of `format!("{bundle}-unsigned.aab")` / `"bundle-unsigned.aab"`. -/
def unsignedAabName (m : Manifest) : String :=
  match m.apk_name with
  | some b => b ++ "-unsigned.aab"
  | none => "bundle-unsigned.aab"

/-- Model of `format!("{signed}.aab")` / `"bundle.aab"`. -/
def signedAabName (m : Manifest) : String :=
  match m.apk_name with
  | some s => s ++ ".aab"
  | none => "bundle.aab"

/-- The apktool invocation `d <apk> -s -o unpacked-apk -f`. -/
def unpackInv (m : Manifest) : Invocation :=
  .unpackApk (apkFileName m) "unpacked-apk"

/-- The `aapt2 compile --dir unpacked-apk/res -o res.zip` invocation. -/
def compileInv : Invocation := .compileRes "unpacked-apk/res" "res.zip"

/-- The `aapt2 link` invocation with the defaulted SDK/version arguments,
`--auto-add-overlay` and `--proto-format`. -/
def linkInv (m : Manifest) (androidJar : String) : Invocation :=
  .linkRes "base.zip" "res.zip" androidJar "unpacked-apk/AndroidManifest.xml"
    (m.min_sdk_version.getD 21) (m.target_sdk_version.getD 35)
    (m.version_code.getD 1) (m.version_name.getD "1.0") true true

/-- The `unzip -d bundle base.zip` invocation. -/
def unzipInv : Invocation := .unzipBase "bundle" "base.zip"

/-- Stage 3 (lines 74–90): apktool decompilation `d <apk> -s -o
unpacked-apk -f` into `unpacked-apk/`. -/
def stageUnpack (m : Manifest) (o : Oracle) (s : St) : StepResult :=
  stepTool o.unpackOk o.unpackErr false "Failed to unpack apk" (unpackInv m)
    (fun fs => fs.setPath ["unpacked-apk"] o.unpackedTree) s

/-- Stage 4 (lines 92–101): `aapt2 compile --dir unpacked-apk/res -o
res.zip`. -/
def stageCompile (o : Oracle) (s : St) : StepResult :=
  stepTool o.compileOk o.compileErr false "Failed to compile resources" compileInv
    (fun fs => fs.setPath ["res.zip"] (.file o.resZipData)) s

/-- Stage 5 (lines 103–121): `aapt2 link` producing `base.zip`. -/
def stageLink (m : Manifest) (androidJar : String) (o : Oracle) (s : St) : StepResult :=
  stepTool o.linkOk o.linkErr false "Failed to link resources" (linkInv m androidJar)
    (fun fs => fs.setPath ["base.zip"] (.archive false o.linkedEntries)) s

/-- Lines 123–130: `create_dir_all(bundle/dex)`, `create_dir(
bundle/manifest)`, `create_dir(bundle/root)`. -/
def mkBundleDirs (fs : Node) : Node :=
  ((fs.setPath ["bundle", "dex"] (.dir [])).setPath ["bundle", "manifest"]
    (.dir [])).setPath ["bundle", "root"] (.dir [])

/-- Effect of `unzip -d bundle base.zip`: each top-level entry of the
archive is extracted into `bundle/` (merging with what is already
there). -/
def expandBaseZip (fs : Node) : Node :=
  match fs.lookupPath ["base.zip"] with
  | some (.archive _ es) => es.foldl (fun f e => f.setPath ["bundle", e.1] e.2) fs
  | _ => fs

/-- Stage 6 (lines 132–141): expand `base.zip` into `bundle/`. -/
def stageUnzip (o : Oracle) (s : St) : StepResult :=
  stepTool o.unzipOk o.unzipErr false "Failed to unzip base.zip" unzipInv
    expandBaseZip s

/-- Stage 7 (lines 143–160): restage into bundle layout — move the
manifest and the native-library tree (mandatory), then the optional
assets, "unknown" and "kotlin" trees (`NotFound` tolerated), the latter
two both targeting `bundle/root/`. -/
def stageRestage (s : St) : StepResult :=
  match renameNode s.fs ["bundle", "AndroidManifest.xml"]
      ["bundle", "manifest", "AndroidManifest.xml"] with
  | .error e => (.error (.ioError e), s)
  | .ok f1 =>
    match renameNode f1 ["unpacked-apk", "lib"] ["bundle", "lib"] with
    | .error e => (.error (.ioError e), ⟨f1, s.trace⟩)
    | .ok f2 =>
      match moveTolerant f2 ["unpacked-apk", "assets"] ["bundle", "assets"] with
      | .error e => (.error (.ioError e), ⟨f2, s.trace⟩)
      | .ok f3 =>
        match moveTolerant f3 ["unpacked-apk", "unknown"] ["bundle", "root"] with
        | .error e => (.error (.ioError e), ⟨f3, s.trace⟩)
        | .ok f4 =>
          match moveTolerant f4 ["unpacked-apk", "kotlin"] ["bundle", "root"] with
          | .error e => (.error (.ioError e), ⟨f4, s.trace⟩)
          | .ok f5 => (.ok (), ⟨f5, s.trace⟩)

/-- The seven `-C bundle <name>` operands passed to `jar`. -/
def bundleEntryNames : List String :=
  ["assets", "dex", "lib", "manifest", "res", "root", "resources.pb"]

/-- The option string passed to `jar`: create, no manifest, named file.
It does not include the `0` (store-only) option. -/
def jarFlags : String := "cMf"

/-- Whether a `jar` option string requests stored (uncompressed) entries:
only when the `0` option is present; otherwise `jar` deflates. -/
def jarStoresUncompressed (flags : String) : Bool := flags.data.contains '0'

/-- The archive `jar` creates from the named entries under `bundle/`:
entries keyed by their directory-relative path, skipping names with no
corresponding node, compressed according to the option string. -/
def mkBundleZip (fs : Node) : Node :=
  .archive (jarStoresUncompressed jarFlags)
    (bundleEntryNames.filterMap
      (fun n => (fs.lookupPath ["bundle", n]).map (fun v => (n, v))))

/-- The `jar cMf bundle/bundle.zip -C bundle <seven names>`
invocation. -/
def jarInv : Invocation := .jarCreate jarFlags "bundle/bundle.zip" bundleEntryNames

/-- Stage 8 (lines 162–178): `jar cMf bundle/bundle.zip -C bundle
<seven names>`. -/
def stageJar (o : Oracle) (s : St) : StepResult :=
  stepTool o.jarOk o.jarErr false "Failed to create bundle.zip" jarInv
    (fun fs => fs.setPath ["bundle", "bundle.zip"] (mkBundleZip fs)) s

/-- Stage 9 (lines 180–195): the `bundletool build-bundle --modules
bundle/bundle.zip --output <name>-unsigned.aab` invocation; the produced
container wraps the sole module. -/
def buildBundleInv (m : Manifest) : Invocation :=
  .buildBundle "bundle/bundle.zip" (unsignedAabName m)

/-- Stage 9 continued: the bundletool step itself. -/
def stageBundleTool (m : Manifest) (o : Oracle) (s : St) : StepResult :=
  stepTool o.bundletoolOk o.bundletoolErr false "Failed to build bundle"
    (buildBundleInv m)
    (fun fs => fs.setPath [unsignedAabName m]
      (.archive false [("base", (fs.lookupPath ["bundle", "bundle.zip"]).getD (.dir []))])) s

/-- The jarsigner invocation: `-verbose -sigalg SHA256withRSA -digestalg
SHA-256 -keystore <path> -storepass <pw> -keypass <pw-or-empty>
-signedjar <out> <in> <alias-or-empty>`. -/
def signInv (m : Manifest) (key : KeystoreMeta) : Invocation :=
  .signJar "SHA256withRSA" "SHA-256" key.path key.store_pass
    (key.key_pass.getD "") (signedAabName m) (unsignedAabName m)
    (key.«alias».getD "")

/-- Stage 10 (lines 197–224): resolve the credential with
`is_debug_profile = false`, then invoke jarsigner with SHA-256
digest/signature algorithms; its stdout/stderr are configured as
`Stdio::inherit()`, so `output()` captures nothing. The signed output is
the input container (content preserved by signing for this model). -/
def stageSign (m : Manifest) (env : EnvMap) (crate_path : String) (profile : Profile)
    (debug_key : KeystoreMeta) (o : Oracle) (s : St) : StepResult :=
  match (AabBuilder.read_keystore_meta env m.signing profile crate_path false
      debug_key).result with
  | .error (.missingReleaseKey p) => (.error (.missingReleaseKey p), s)
  | .ok key =>
    stepTool o.signOk o.signErr true "Failed to sign aab" (signInv m key)
      (fun fs => fs.setPath [signedAabName m]
        ((fs.lookupPath [unsignedAabName m]).getD (.dir []))) s

/-- The staging state after the two filesystem-only stages (reset and
tool materialization), before any tool runs. -/
def startState (prior : List (String × Node)) : St :=
  ⟨writeTools (resetStaging prior), []⟩

/-- Model of `AabBuilder::create_from_apk` (src/aab.rs lines 46–227): the full
ten-stage pipeline over the staging root.  Parameters mirror the builder
state: manifest configuration, process environment, crate path, the
debug-key collaborator's credential, the build profile, the platform
resource archive path, the staging root's prior entries, and the
tool-behaviour oracle. -/
def create_from_apk (m : Manifest) (env : EnvMap) (crate_path : String)
    (debug_key : KeystoreMeta) (profile : Profile) (androidJar : String)
    (prior : List (String × Node)) (o : Oracle) : StepResult :=
  andThen (stageUnpack m o (startState prior)) (fun s1 =>
  andThen (stageCompile o s1) (fun s2 =>
  andThen (stageLink m androidJar o s2) (fun s3 =>
  andThen (stageUnzip o ⟨mkBundleDirs s3.fs, s3.trace⟩) (fun s4 =>
  andThen (stageRestage s4) (fun s5 =>
  andThen (stageJar o s5) (fun s6 =>
  andThen (stageBundleTool m o s6) (fun s7 =>
  stageSign m env crate_path profile debug_key o s7)))))))

/-- The staging state the run reaches just before the restaging stage
when the first four tool invocations succeed: the staged trees written by
the decompiler, resource compiler, linker and expander, and the four
invocations made so far. -/
def preRestageState (m : Manifest) (androidJar : String)
    (prior : List (String × Node)) (o : Oracle) : St :=
  ⟨expandBaseZip (mkBundleDirs
    ((((startState prior).fs.setPath ["unpacked-apk"] o.unpackedTree).setPath
      ["res.zip"] (.file o.resZipData)).setPath ["base.zip"]
      (.archive false o.linkedEntries))),
   [unpackInv m, compileInv, linkInv m androidJar, unzipInv]⟩

/-- Discriminator for directory nodes. -/
def Node.isDir : Node → Bool
  | .dir _ => true
  | _ => false

/-- Claim-side characterization (for C1, amended): the exact condition
under which `read_keystore_meta` fails, stated over the inputs.  With an
environment store path set: the store password is missing and debug
fallback is off, or an environment key alias is set without an
environment key password.  Without one: the project entry for the profile
has an alias without a key password, or there is no entry and debug
fallback is off. -/
def resolveFailsB (env : EnvMap) (signing : List (String × Signing))
    (profile : Profile) (allow : Bool) : Bool :=
  let n := profileBaseName profile
  let u := normalizeProfileName n
  match env (storePathVar u) with
  | some _ =>
    ((env (storePasswordVar u)).isNone && !allow) ||
      ((env (keyAliasVar u)).isSome && (env (keyPasswordVar u)).isNone)
  | none =>
    match List.lookup n signing with
    | some s => s.key_alias.isSome && s.key_password.isNone
    | none => !allow

/-- The entry names of an archive node (in order), when the node is an
archive. -/
def zipEntryNames : Option Node → Option (List String)
  | some (.archive _ es) => some (es.map Prod.fst)
  | _ => none

/-- An empty process environment (no overrides set). -/
def env0 : EnvMap := fun _ => none

/-- A concrete debug-key credential, standing for what
`ndk.debug_key()` returns. -/
def dkConc : KeystoreMeta :=
  ⟨"/home/user/.android/debug.keystore", "android", none, none⟩

/-- Manifest configuration for the end-to-end scenario (C6): explicit
`apk_name`, defaults everywhere else, and a `release` signing entry with
both alias and key password present. -/
def c6cfg : Manifest :=
  { apk_name := some "myapp", min_sdk_version := none, target_sdk_version := none,
    version_code := none, version_name := none,
    signing := [("release", ⟨"release.jks", "storepw", some "key0", some "keypw"⟩)] }

/-- Decompiled tree of an input package with no assets and no native
libraries.  The decompiler is modelled as always materializing the `lib`
tree (empty here): the pipeline's mandatory `lib` move requires it, and
the spec lists the native-library tree among the decompilation outputs
and `lib` among the final bundle entries even for this scenario. -/
def c6Unpacked : Node :=
  .dir [("AndroidManifest.xml", .file "manifest-src"),
        ("res", .dir [("values", .file "v")]),
        ("lib", .dir [])]

/-- Entries of the linked archive `base.zip` for the scenario: the
processed manifest, the linked resource tree and the proto resource
table. -/
def c6Linked : List (String × Node) :=
  [("AndroidManifest.xml", .file "manifest-linked"),
   ("res", .dir [("values.pb", .file "vp")]),
   ("resources.pb", .file "rpb")]

/-- Oracle where every tool invocation succeeds, decompiling to
`c6Unpacked` and linking to `c6Linked`. -/
def okOracle : Oracle :=
  { unpackOk := true, unpackErr := "", unpackedTree := c6Unpacked,
    compileOk := true, compileErr := "", resZipData := "reszip",
    linkOk := true, linkErr := "", linkedEntries := c6Linked,
    unzipOk := true, unzipErr := "",
    jarOk := true, jarErr := "",
    bundletoolOk := true, bundletoolErr := "",
    signOk := true, signErr := "" }

/-- The end-to-end scenario run (C6): profile `Release`, no environment
overrides, project signing entry with alias and password, empty staging
root, all tools succeeding. -/
def c6run : StepResult :=
  create_from_apk c6cfg env0 "/proj" dkConc .release "android.jar" [] okOracle

/-- Environment for the C1 counterexample: only the `dev` key-alias
variable is set. -/
def c1Env : EnvMap :=
  fun s => if s == keyAliasVar "DEV" then some "release-key" else none

/-- Project signing map for the C1 counterexample: a `dev` entry with no
alias. -/
def c1Signing : List (String × Signing) :=
  [("dev", ⟨"keys/dev.jks", "devpw", none, none⟩)]

/-- Environment for the C2 counterexample: store path, store password and
key alias set for `release`, key password not set. -/
def c2Env : EnvMap :=
  fun s =>
    if s == storePathVar "RELEASE" then some "ks.jks" else
    if s == storePasswordVar "RELEASE" then some "spw" else
    if s == keyAliasVar "RELEASE" then some "upload" else none

/-- Environment for the C2 witness: store path and store password set for
`release`, nothing else. -/
def c2wEnv : EnvMap :=
  fun s =>
    if s == storePathVar "RELEASE" then some "ks.jks" else
    if s == storePasswordVar "RELEASE" then some "spw" else none

/-- Environment for the C4 counterexample: store path and key alias set
for `dev`, neither password set. -/
def c4Env : EnvMap :=
  fun s =>
    if s == storePathVar "DEV" then some "dev.jks" else
    if s == keyAliasVar "DEV" then some "roger" else none

/-- Environment for the C4 witness: only the `dev` store path set. -/
def c4wEnv : EnvMap :=
  fun s => if s == storePathVar "DEV" then some "dev.jks" else none

/-- Staging root for the C5 witness: a stale tools cache plus leftover
ephemeral state from a prior run. -/
def c5Prior : List (String × Node) :=
  [("tools", .dir [("stale", .file "x")]),
   ("junk", .file "j"),
   ("unpacked-apk", .dir [("res", .dir [])])]

/-- Bundle staging tree with all seven repackaging entries present (C7). -/
def c7fs : Node :=
  .dir [("bundle",
    .dir [("assets", .file "A"), ("dex", .dir []), ("lib", .dir []),
          ("manifest", .dir [("AndroidManifest.xml", .file "m")]),
          ("res", .dir []), ("root", .dir []), ("resources.pb", .file "R")])]

/-- The seven entries `jar` collects from `c7fs`. -/
def c7entries : List (String × Node) :=
  [("assets", .file "A"), ("dex", .dir []), ("lib", .dir []),
   ("manifest", .dir [("AndroidManifest.xml", .file "m")]),
   ("res", .dir []), ("root", .dir []), ("resources.pb", .file "R")]

/-- Decompiled tree with an *empty* "unknown" tree and a "kotlin" tree
(C8: the later move wins only in this case). -/
def c8okUnpacked : Node :=
  .dir [("AndroidManifest.xml", .file "m"), ("res", .dir []), ("lib", .dir []),
        ("unknown", .dir []),
        ("kotlin", .dir [("kotlin.bin", .file "kb")])]

/-- Decompiled tree with a *non-empty* "unknown" tree and a "kotlin"
tree (C8: the second rename onto the now non-empty `bundle/root/`
fails). -/
def c8errUnpacked : Node :=
  .dir [("AndroidManifest.xml", .file "m"), ("res", .dir []), ("lib", .dir []),
        ("unknown", .dir [("u.bin", .file "ub")]),
        ("kotlin", .dir [("kotlin.bin", .file "kb")])]

/-- Pipeline run where the decompiled package has an empty "unknown" tree
and a "kotlin" tree. -/
def c8okRun : StepResult :=
  create_from_apk c6cfg env0 "/proj" dkConc .release "android.jar" []
    { okOracle with unpackedTree := c8okUnpacked }

/-- Pipeline run where the decompiled package has a non-empty "unknown"
tree and a "kotlin" tree. -/
def c8errRun : StepResult :=
  create_from_apk c6cfg env0 "/proj" dkConc .release "android.jar" []
    { okOracle with unpackedTree := c8errUnpacked }

/-- Oracle for the C9 counterexample: everything succeeds except the
final jarsigner invocation, which fails with a non-empty diagnostic on
its (inherited) stderr. -/
def c9ceOracle : Oracle :=
  { okOracle with signOk := false, signErr := "keystore was tampered with" }

/-- The C9 counterexample run. -/
def c9ceRun : StepResult :=
  create_from_apk c6cfg env0 "/proj" dkConc .release "android.jar" [] c9ceOracle

/-- Oracle for the C9 witness (jarsigner fails with stderr "boom"). -/
def c9wOracle : Oracle := { okOracle with signOk := false, signErr := "boom" }

/-- The restaged state reached in the C9 witness run. -/
def c9wState : St :=
  (stageRestage (preRestageState c6cfg "android.jar" [] c9wOracle)).2

/-- The credential the C9 witness run resolves from the project signing
entry. -/
def c9wKey : KeystoreMeta :=
  ⟨joinPath "/proj" "release.jks", "storepw", some "key0", some "keypw"⟩

theorem lookup_filter_tools_none (k : String) (hk : k ≠ "tools")
    (prior : List (String × Node)) :
    List.lookup k (prior.filter (fun e => e.1 == "tools")) = none := by
  have hbe : (k == "tools") = false := beq_eq_false_iff_ne.mpr hk
  induction prior with
  | nil => simp
  | cons e t ih =>
    by_cases h : e.1 = "tools"
    · simp [List.filter_cons, h, List.lookup, hbe, ih]
    · simp [List.filter_cons, h, ih]

theorem lookup_filter_tools (prior : List (String × Node)) :
    List.lookup "tools" (prior.filter (fun e => e.1 == "tools"))
      = List.lookup "tools" prior := by
  induction prior with
  | nil => simp
  | cons e t ih =>
    by_cases h : e.1 = "tools"
    · simp [List.filter_cons, h, List.lookup]
    · have hbe : ("tools" == e.1) = false := beq_eq_false_iff_ne.mpr (Ne.symm h)
      simp [List.filter_cons, h, ih, List.lookup, hbe]

theorem lookup_setEntry_self (es : List (String × Node)) (k : String) (v : Node) :
    List.lookup k (setEntry es k v) = some v := by
  induction es with
  | nil => simp [setEntry]
  | cons e t ih =>
    by_cases h : e.1 = k
    · simp [setEntry, h]
    · have hbe1 : (e.1 == k) = false := beq_eq_false_iff_ne.mpr h
      have hbe2 : (k == e.1) = false := beq_eq_false_iff_ne.mpr (Ne.symm h)
      simp [setEntry, hbe1, List.lookup, hbe2, ih]

theorem lookup_setEntry_ne (es : List (String × Node)) (k k' : String)
    (v : Node) (h : k' ≠ k) :
    List.lookup k' (setEntry es k v) = List.lookup k' es := by
  have hbe : (k' == k) = false := beq_eq_false_iff_ne.mpr h
  induction es with
  | nil => simp [setEntry, List.lookup, hbe]
  | cons e t ih =>
    by_cases he : e.1 = k
    · simp [setEntry, he, List.lookup, hbe]
    · have hbe1 : (e.1 == k) = false := beq_eq_false_iff_ne.mpr he
      simp [setEntry, hbe1, List.lookup, ih]

theorem writeTools_tools_archives (es : List (String × Node))
    (h : ∀ t, List.lookup "tools" es = some t → t.isDir = true) :
    (writeTools (.dir es)).lookupPath ["tools", "apktool-2.8.1.jar"]
      = some (.file APK_TOOL_DATA)
    ∧ (writeTools (.dir es)).lookupPath ["tools", "bundletool-1.15.4.jar"]
      = some (.file BUNDLE_TOOL_DATA) := by
  cases ht : List.lookup "tools" es with
  | none =>
    simp only [writeTools, Node.setPath, ht, lookup_setEntry_self,
      Node.lookupPath, setEntry]
    exact ⟨rfl, rfl⟩
  | some t =>
    have hd := h t ht
    cases t with
    | file d => simp [Node.isDir] at hd
    | archive st en => simp [Node.isDir] at hd
    | dir es' =>
      simp only [writeTools, Node.setPath, ht, lookup_setEntry_self,
        Node.lookupPath]
      cases hl : List.lookup "apktool-2.8.1.jar" es' with
      | none =>
        simp only [hl]
        cases hl2 : List.lookup "bundletool-1.15.4.jar"
            (setEntry es' "apktool-2.8.1.jar" (.file APK_TOOL_DATA)) with
        | none =>
          simp [hl2, lookup_setEntry_self,
            lookup_setEntry_ne _ _ _ _
              (by decide : "apktool-2.8.1.jar" ≠ "bundletool-1.15.4.jar"), hl]
        | some c =>
          simp [hl2, lookup_setEntry_self,
            lookup_setEntry_ne _ _ _ _
              (by decide : "apktool-2.8.1.jar" ≠ "bundletool-1.15.4.jar"), hl]
      | some c =>
        simp only [hl]
        cases hl2 : List.lookup "bundletool-1.15.4.jar"
            (setEntry es' "apktool-2.8.1.jar" (.file APK_TOOL_DATA)) with
        | none =>
          simp [hl2, lookup_setEntry_self,
            lookup_setEntry_ne _ _ _ _
              (by decide : "apktool-2.8.1.jar" ≠ "bundletool-1.15.4.jar"), hl]
        | some c2 =>
          simp [hl2, lookup_setEntry_self,
            lookup_setEntry_ne _ _ _ _
              (by decide : "apktool-2.8.1.jar" ≠ "bundletool-1.15.4.jar"), hl]

/-- C1 (amended): resolution fails — always with `MissingReleaseKey`
naming the normalized profile — exactly when `resolveFailsB` holds: an
environment store path without an environment store password and no
debug fallback, or an environment key alias without an environment key
password while the environment store path is set; or, with no
environment store path, a project entry whose alias lacks a key
password, or no project entry and no debug fallback.  In every other
case resolution returns a credential.  (The claim's alias condition is
amended to be scoped to the source selected by precedence: an alias
configured in the source that is *not* consulted does not cause a
failure.) -/
theorem c1_missing_release_key_characterization :
    ∀ (env : EnvMap) (signing : List (String × Signing)) (profile : Profile)
      (crate_path : String) (allow : Bool) (dk : KeystoreMeta),
      ((ApkBuilder.read_keystore_meta env signing profile crate_path allow dk).result
          = .error (.missingReleaseKey (normalizeProfileName (profileBaseName profile)))
        ↔ resolveFailsB env signing profile allow = true)
      ∧ (resolveFailsB env signing profile allow = false →
          ∃ c, (ApkBuilder.read_keystore_meta env signing profile crate_path allow dk).result
            = .ok c) := by
  intro env signing profile cp allow dk
  constructor
  · simp only [ApkBuilder.read_keystore_meta, resolveFailsB]
    cases h1 : env (storePathVar (normalizeProfileName (profileBaseName profile))) with
    | none =>
      simp only [h1]
      cases h2 : List.lookup (profileBaseName profile) signing with
      | none => cases allow <;> simp
      | some s =>
        cases h3 : s.key_alias with
        | none => simp [h3]
        | some a =>
          cases h4 : s.key_password with
          | none => simp [h3, h4]
          | some kp => simp [h3, h4]
    | some p =>
      simp only [h1]
      cases h2 : env (storePasswordVar (normalizeProfileName (profileBaseName profile))) with
      | some w =>
        simp only [h2]
        cases h3 : env (keyAliasVar (normalizeProfileName (profileBaseName profile))) with
        | none => simp
        | some a =>
          cases h4 : env (keyPasswordVar (normalizeProfileName (profileBaseName profile))) with
          | none => simp
          | some kp => simp
      | none =>
        simp only [h2]
        cases allow with
        | false => simp
        | true =>
          cases h3 : env (keyAliasVar (normalizeProfileName (profileBaseName profile))) with
          | none => simp
          | some a =>
            cases h4 : env (keyPasswordVar (normalizeProfileName (profileBaseName profile))) with
            | none => simp
            | some kp => simp
  · simp only [ApkBuilder.read_keystore_meta, resolveFailsB]
    cases h1 : env (storePathVar (normalizeProfileName (profileBaseName profile))) with
    | none =>
      simp only [h1]
      cases h2 : List.lookup (profileBaseName profile) signing with
      | none => cases allow <;> simp
      | some s =>
        cases h3 : s.key_alias with
        | none => simp [h3]
        | some a =>
          cases h4 : s.key_password with
          | none => simp [h3, h4]
          | some kp => simp [h3, h4]
    | some p =>
      simp only [h1]
      cases h2 : env (storePasswordVar (normalizeProfileName (profileBaseName profile))) with
      | some w =>
        simp only [h2]
        cases h3 : env (keyAliasVar (normalizeProfileName (profileBaseName profile))) with
        | none => simp
        | some a =>
          cases h4 : env (keyPasswordVar (normalizeProfileName (profileBaseName profile))) with
          | none => simp
          | some kp => simp
      | none =>
        simp only [h2]
        cases allow with
        | false => simp
        | true =>
          cases h3 : env (keyAliasVar (normalizeProfileName (profileBaseName profile))) with
          | none => simp
          | some a =>
            cases h4 : env (keyPasswordVar (normalizeProfileName (profileBaseName profile))) with
            | none => simp
            | some kp => simp

/-- C1 counterexample: a key alias *is* configured by the environment
(`CARGO_ANDROID_DEV_KEY_ALIAS`) without a matching key password, yet —
because no environment store path is set and the project entry for the
profile has no alias — resolution returns a credential instead of
failing, contradicting the claim's second failure case. -/
theorem c1_counterexample :
    c1Env (keyAliasVar "DEV") = some "release-key"
    ∧ c1Env (keyPasswordVar "DEV") = none
    ∧ (ApkBuilder.read_keystore_meta c1Env c1Signing .dev "/proj" false dkConc).result
        = .ok ⟨joinPath "/proj" "keys/dev.jks", "devpw", none, none⟩ :=
  ⟨rfl, rfl, rfl⟩

/-- C2 (amended): whenever both the store-path and store-password
environment variables for the profile are set, resolution never consults
the project signing map — the entire outcome (credential or error, and
diagnostics) is identical for any two maps.  It returns the
environment-derived credential when the key-alias variable is unset, or
when the key-password variable is also set; if the key-alias variable is
set without the key-password variable it fails with `MissingReleaseKey`
(identically for every project map), which is the one case the original
claim's unconditional "resolution succeeds" misses. -/
theorem c2_env_override_shadows_project :
    ∀ (env : EnvMap) (signing signing' : List (String × Signing)) (profile : Profile)
      (cp : String) (allow : Bool) (dk : KeystoreMeta) (p w : String),
      env (storePathVar (normalizeProfileName (profileBaseName profile))) = some p →
      env (storePasswordVar (normalizeProfileName (profileBaseName profile))) = some w →
      (ApkBuilder.read_keystore_meta env signing profile cp allow dk
        = ApkBuilder.read_keystore_meta env signing' profile cp allow dk)
      ∧ (env (keyAliasVar (normalizeProfileName (profileBaseName profile))) = none →
          (ApkBuilder.read_keystore_meta env signing profile cp allow dk).result
            = .ok (KeystoreMeta.single p w))
      ∧ (∀ a k, env (keyAliasVar (normalizeProfileName (profileBaseName profile))) = some a →
          env (keyPasswordVar (normalizeProfileName (profileBaseName profile))) = some k →
          (ApkBuilder.read_keystore_meta env signing profile cp allow dk).result
            = .ok (((KeystoreMeta.single p w).setAlias a).setKeyPass k))
      ∧ (∀ a, env (keyAliasVar (normalizeProfileName (profileBaseName profile))) = some a →
          env (keyPasswordVar (normalizeProfileName (profileBaseName profile))) = none →
          (ApkBuilder.read_keystore_meta env signing profile cp allow dk).result
            = .error (.missingReleaseKey (normalizeProfileName (profileBaseName profile)))) := by
  intro env signing signing' profile cp allow dk p w hp hw
  refine ⟨?_, ?_, ?_, ?_⟩
  · simp [ApkBuilder.read_keystore_meta, hp, hw]
  · intro ha; simp [ApkBuilder.read_keystore_meta, hp, hw, ha]
  · intro a k ha hk; simp [ApkBuilder.read_keystore_meta, hp, hw, ha, hk]
  · intro a ha hk; simp [ApkBuilder.read_keystore_meta, hp, hw, ha, hk]

/-- C2 witness: with `CARGO_ANDROID_RELEASE_STORE_PATH` and
`CARGO_ANDROID_RELEASE_STORE_PASSWORD` set and no alias variable,
resolution ignores the project map (same outcome for a populated map and
an empty one) and returns the environment credential. -/
theorem c2_witness :
    ApkBuilder.read_keystore_meta c2wEnv c1Signing .release "/proj" false dkConc
      = ApkBuilder.read_keystore_meta c2wEnv [] .release "/proj" false dkConc
    ∧ (ApkBuilder.read_keystore_meta c2wEnv c1Signing .release "/proj" false dkConc).result
        = .ok (KeystoreMeta.single "ks.jks" "spw") := by
  have h := c2_env_override_shadows_project c2wEnv c1Signing [] .release "/proj"
    false dkConc "ks.jks" "spw" rfl rfl
  exact ⟨h.1, h.2.1 rfl⟩

/-- C2 counterexample: both the store-path and store-password environment
variables are set for `release`, yet resolution fails (the key-alias
variable is set without the key-password variable), contradicting the
claim's "resolution succeeds". -/
theorem c2_counterexample :
    c2Env (storePathVar "RELEASE") = some "ks.jks"
    ∧ c2Env (storePasswordVar "RELEASE") = some "spw"
    ∧ (ApkBuilder.read_keystore_meta c2Env [] .release "/proj" false dkConc).result
        = .error (.missingReleaseKey "RELEASE") :=
  ⟨rfl, rfl, rfl⟩

/-- C3: with no environment store path and no project entry, resolution
with debug fallback allowed returns exactly the toolchain's debug key,
and with debug fallback disallowed fails with `MissingReleaseKey`; and
the bundle pipeline's signing stage resolves with debug fallback
disabled — its entire run (result, staging tree and invocation trace) is
independent of the debug-key credential, so a bundle is never signed
with the auto-generated debug key. -/
theorem c3_debug_fallback_and_bundle_signing :
    (∀ (env : EnvMap) (signing : List (String × Signing)) (profile : Profile)
      (cp : String) (dk : KeystoreMeta),
      env (storePathVar (normalizeProfileName (profileBaseName profile))) = none →
      List.lookup (profileBaseName profile) signing = none →
      (ApkBuilder.read_keystore_meta env signing profile cp true dk).result = .ok dk
      ∧ (ApkBuilder.read_keystore_meta env signing profile cp false dk).result
          = .error (.missingReleaseKey (normalizeProfileName (profileBaseName profile))))
    ∧ (∀ (m : Manifest) (env : EnvMap) (cp : String) (profile : Profile)
      (aj : String) (prior : List (String × Node)) (o : Oracle)
      (dk dk' : KeystoreMeta),
      create_from_apk m env cp dk profile aj prior o
        = create_from_apk m env cp dk' profile aj prior o) := by
  constructor
  · intro env signing profile cp dk hp hl
    constructor <;> simp [ApkBuilder.read_keystore_meta, hp, hl]
  · intro m env cp profile aj prior o dk dk'
    rfl

/-- C3 witness: empty environment and empty signing map — the `dev`
profile resolves to the debug key with fallback allowed and fails with
fallback disallowed. -/
theorem c3_witness :
    (ApkBuilder.read_keystore_meta env0 [] .dev "/proj" true dkConc).result = .ok dkConc
    ∧ (ApkBuilder.read_keystore_meta env0 [] .dev "/proj" false dkConc).result
        = .error (.missingReleaseKey "DEV") := by
  have h := c3_debug_fallback_and_bundle_signing.1 env0 [] .dev "/proj" dkConc rfl rfl
  exact ⟨h.1, h.2⟩

/-- C4 (amended): with the profile's store-path environment variable set
and the store-password variable unset, resolution with debug fallback
allowed succeeds with the environment store path and the fixed
development keystore password and emits the fallback warning — provided
the key-alias variable is unset or the key-password variable is set
(with an alias set but no key password it fails even under debug
fallback, the case the original claim misses); with debug fallback
disallowed it fails with `MissingReleaseKey` naming the profile. -/
theorem c4_store_path_without_password :
    ∀ (env : EnvMap) (signing : List (String × Signing)) (profile : Profile)
      (cp : String) (dk : KeystoreMeta) (p : String),
      env (storePathVar (normalizeProfileName (profileBaseName profile))) = some p →
      env (storePasswordVar (normalizeProfileName (profileBaseName profile))) = none →
      ((env (keyAliasVar (normalizeProfileName (profileBaseName profile))) = none →
          ApkBuilder.read_keystore_meta env signing profile cp true dk
            = ⟨.ok (KeystoreMeta.single p DEFAULT_DEV_KEYSTORE_PASSWORD),
               [fallbackMsg (storePasswordVar (normalizeProfileName (profileBaseName profile)))]⟩)
      ∧ (∀ a k, env (keyAliasVar (normalizeProfileName (profileBaseName profile))) = some a →
          env (keyPasswordVar (normalizeProfileName (profileBaseName profile))) = some k →
          ApkBuilder.read_keystore_meta env signing profile cp true dk
            = ⟨.ok (((KeystoreMeta.single p DEFAULT_DEV_KEYSTORE_PASSWORD).setAlias a).setKeyPass k),
               [fallbackMsg (storePasswordVar (normalizeProfileName (profileBaseName profile)))]⟩)
      ∧ ((ApkBuilder.read_keystore_meta env signing profile cp false dk).result
          = .error (.missingReleaseKey (normalizeProfileName (profileBaseName profile))))) := by
  intro env signing profile cp dk p hp hw
  refine ⟨?_, ?_, ?_⟩
  · intro ha; simp [ApkBuilder.read_keystore_meta, hp, hw, ha]
  · intro a k ha hk; simp [ApkBuilder.read_keystore_meta, hp, hw, ha, hk]
  · simp [ApkBuilder.read_keystore_meta, hp, hw]

/-- C4 witness: `CARGO_ANDROID_DEV_STORE_PATH` set, no other variable —
with fallback allowed the resolution uses the default development
password and emits the warning; with fallback disallowed it fails. -/
theorem c4_witness :
    ApkBuilder.read_keystore_meta c4wEnv [] .dev "/proj" true dkConc
      = ⟨.ok (KeystoreMeta.single "dev.jks" DEFAULT_DEV_KEYSTORE_PASSWORD),
         [fallbackMsg (storePasswordVar "DEV")]⟩
    ∧ (ApkBuilder.read_keystore_meta c4wEnv [] .dev "/proj" false dkConc).result
        = .error (.missingReleaseKey "DEV") := by
  have h := c4_store_path_without_password c4wEnv [] .dev "/proj" dkConc "dev.jks" rfl rfl
  exact ⟨h.1 rfl, h.2.2⟩

/-- C4 counterexample: store path set without store password and debug
fallback allowed, but a key alias is also set without a key password —
resolution fails with `MissingReleaseKey` instead of succeeding with the
default development password as the claim states. -/
theorem c4_counterexample :
    c4Env (storePathVar "DEV") = some "dev.jks"
    ∧ c4Env (storePasswordVar "DEV") = none
    ∧ (ApkBuilder.read_keystore_meta c4Env [] .dev "/proj" true dkConc).result
        = .error (.missingReleaseKey "DEV") :=
  ⟨rfl, rfl, rfl⟩

/-- C5: the reset stage removes every entry of the staging root other
than `tools/` (recreating the root if absent — an absent root is the
empty entry list), the `tools` entry is exactly what the prior run left,
and — whenever the surviving `tools` entry is a directory (or absent) —
the tool-materialization stage rewrites both helper-tool archives with
the build-time-embedded constants, so the cache content after the stage
does not depend on the prior run. -/
theorem c5_reset_keeps_only_tools :
    (∀ (prior : List (String × Node)) (k : String), k ≠ "tools" →
      (resetStaging prior).lookupPath [k] = none)
    ∧ (∀ prior : List (String × Node),
      (resetStaging prior).lookupPath ["tools"] = List.lookup "tools" prior)
    ∧ (∀ prior : List (String × Node),
      (∀ t, List.lookup "tools" prior = some t → t.isDir = true) →
      (writeTools (resetStaging prior)).lookupPath ["tools", "apktool-2.8.1.jar"]
        = some (.file APK_TOOL_DATA)
      ∧ (writeTools (resetStaging prior)).lookupPath ["tools", "bundletool-1.15.4.jar"]
        = some (.file BUNDLE_TOOL_DATA)) := by
  refine ⟨?_, ?_, ?_⟩
  · intro prior k hk
    simp only [resetStaging, Node.lookupPath, lookup_filter_tools_none k hk prior]
  · intro prior
    simp only [resetStaging, Node.lookupPath, lookup_filter_tools prior]
    cases List.lookup "tools" prior <;> rfl
  · intro prior h
    refine writeTools_tools_archives _ ?_
    intro t ht
    rw [lookup_filter_tools prior] at ht
    exact h t ht

/-- C5 witness: a staging root holding a stale tools cache, a stray file
and leftover ephemeral state — after reset only `tools` survives, and
after materialization both archives hold the embedded constants. -/
theorem c5_witness :
    (resetStaging c5Prior).lookupPath ["junk"] = none
    ∧ (resetStaging c5Prior).lookupPath ["unpacked-apk"] = none
    ∧ (resetStaging c5Prior).lookupPath ["tools"] = some (.dir [("stale", .file "x")])
    ∧ (writeTools (resetStaging c5Prior)).lookupPath ["tools", "apktool-2.8.1.jar"]
        = some (.file APK_TOOL_DATA)
    ∧ (writeTools (resetStaging c5Prior)).lookupPath ["tools", "bundletool-1.15.4.jar"]
        = some (.file BUNDLE_TOOL_DATA) := by
  have h3 := c5_reset_keeps_only_tools.2.2 c5Prior
    (by intro t ht; rw [show List.lookup "tools" c5Prior
      = some (Node.dir [("stale", Node.file "x")]) from rfl] at ht
        cases ht; rfl)
  exact ⟨c5_reset_keeps_only_tools.1 c5Prior "junk" (by decide),
    c5_reset_keeps_only_tools.1 c5Prior "unpacked-apk" (by decide),
    (c5_reset_keeps_only_tools.2.1 c5Prior).trans rfl, h3.1, h3.2⟩

/-- C6: the end-to-end scenario — input package with no native libraries
and no assets, profile `Release`, no environment overrides, a project
signing entry with alias and key password — completes successfully,
produces `bundle/bundle.zip` whose entries are exactly `dex, lib,
manifest, res, root, resources.pb` (assets omitted), and produces the
final signed bundle file named `myapp.aab` (`<apk_name>.aab`). -/
theorem c6_end_to_end_scenario :
    c6run.1 = .ok ()
    ∧ zipEntryNames (c6run.2.fs.lookupPath ["bundle", "bundle.zip"])
        = some ["dex", "lib", "manifest", "res", "root", "resources.pb"]
    ∧ signedAabName c6cfg = "myapp.aab"
    ∧ (c6run.2.fs.lookupPath ["myapp.aab"]).isSome = true :=
  ⟨rfl, rfl, rfl, rfl⟩

/-- C7 (amended): the repackaging stage records the `jar` invocation
with option string `cMf` — which does *not* include the `0`
(store-uncompressed) option, so the archive is deflated, not stored —
over exactly the seven names under `bundle/`, and when all seven are
present the created `bundle.zip` is the (deflated) archive whose entries
are exactly those seven, each keyed by its directory-relative path. -/
theorem c7_repackage_bundle_zip :
    (∀ (fs : Node) (a d l mf r rt pb : Node),
      fs.lookupPath ["bundle", "assets"] = some a →
      fs.lookupPath ["bundle", "dex"] = some d →
      fs.lookupPath ["bundle", "lib"] = some l →
      fs.lookupPath ["bundle", "manifest"] = some mf →
      fs.lookupPath ["bundle", "res"] = some r →
      fs.lookupPath ["bundle", "root"] = some rt →
      fs.lookupPath ["bundle", "resources.pb"] = some pb →
      mkBundleZip fs = .archive false
        [("assets", a), ("dex", d), ("lib", l), ("manifest", mf), ("res", r),
         ("root", rt), ("resources.pb", pb)])
    ∧ (∀ (o : Oracle) (s : St), (stageJar o s).2.trace = s.trace ++ [jarInv])
    ∧ jarInv = .jarCreate "cMf" "bundle/bundle.zip"
        ["assets", "dex", "lib", "manifest", "res", "root", "resources.pb"]
    ∧ jarStoresUncompressed jarFlags = false := by
  refine ⟨?_, ?_, rfl, rfl⟩
  · intro fs a d l mf r rt pb h1 h2 h3 h4 h5 h6 h7
    simp [mkBundleZip, bundleEntryNames, jarStoresUncompressed, jarFlags,
      h1, h2, h3, h4, h5, h6, h7]
  · intro o s
    simp only [stageJar, stepTool]
    cases o.jarOk <;> rfl

/-- C7 witness: a bundle tree with all seven entries present — the
created archive is the deflated archive of exactly those seven
entries. -/
theorem c7_witness :
    mkBundleZip c7fs = .archive false c7entries := by
  have h := c7_repackage_bundle_zip.1 c7fs (.file "A") (.dir []) (.dir [])
    (.dir [("AndroidManifest.xml", .file "m")]) (.dir []) (.dir []) (.file "R")
    rfl rfl rfl rfl rfl rfl rfl
  exact h.trans rfl

/-- C7 counterexample: on a bundle tree with all seven entries, the
archive the stage creates is deflated (`stored = false`), not the stored
(uncompressed) archive the claim asserts. -/
theorem c7_counterexample :
    mkBundleZip c7fs = .archive false c7entries
    ∧ mkBundleZip c7fs ≠ .archive true c7entries := by
  refine ⟨rfl, ?_⟩
  rw [show mkBundleZip c7fs = .archive false c7entries from rfl]
  simp

/-- C8 (amended): the three optional moves tolerate exactly absence of
the source — a missing source is a no-op and any other rename failure
aborts; both the "unknown" and the "kotlin" moves target `bundle/root/`,
but when both trees exist the outcome depends on the "unknown" tree:
if it is empty the later (kotlin) move wins and the pipeline completes,
while if it is non-empty the kotlin rename hits a non-empty destination
directory, fails with a directory-not-empty error (not `NotFound`, hence
fatal) and the pipeline aborts instead of completing. -/
theorem c8_optional_moves :
    (∀ (fs : Node) (src dst : List String), fs.lookupPath src = none →
      moveTolerant fs src dst = .ok fs)
    ∧ (∀ (fs : Node) (src dst : List String) (e : IoErrorKind),
      renameNode fs src dst = .error e → e ≠ .notFound →
      moveTolerant fs src dst = .error e)
    ∧ (c8okRun.1 = .ok ()
      ∧ c8okRun.2.fs.lookupPath ["bundle", "root"]
          = some (.dir [("kotlin.bin", .file "kb")]))
    ∧ c8errRun.1 = .error (.ioError .notEmpty) := by
  refine ⟨?_, ?_, ⟨rfl, rfl⟩, rfl⟩
  · intro fs src dst h
    simp [moveTolerant, renameNode, h]
  · intro fs src dst e h he
    cases e with
    | notFound => exact absurd rfl he
    | notEmpty => simp [moveTolerant, h]
    | other => simp [moveTolerant, h]

/-- C8 witness: a missing optional source is tolerated unchanged, and a
rename failing with directory-not-empty propagates as fatal. -/
theorem c8_witness :
    moveTolerant (.dir []) ["unpacked-apk", "assets"] ["bundle", "assets"]
      = .ok (.dir [])
    ∧ moveTolerant
        (.dir [("a", .dir [("x", .file "1")]), ("b", .dir [("y", .file "2")])])
        ["a"] ["b"] = .error .notEmpty := by
  exact ⟨c8_optional_moves.1 (.dir []) ["unpacked-apk", "assets"]
      ["bundle", "assets"] rfl,
    c8_optional_moves.2.1
      (.dir [("a", .dir [("x", .file "1")]), ("b", .dir [("y", .file "2")])])
      ["a"] ["b"] .notEmpty rfl (by decide)⟩

/-- C8 counterexample: with both a non-empty "unknown" tree and a
"kotlin" tree in the decompiled package, the pipeline does not complete
with the kotlin tree winning — it aborts with the directory-not-empty
error from the second rename. -/
theorem c8_counterexample :
    c8errRun.1 = .error (.ioError .notEmpty)
    ∧ c8errRun.1 ≠ .ok () := by
  refine ⟨rfl, ?_⟩
  rw [show c8errRun.1 = .error (.ioError .notEmpty) from rfl]
  simp

/-- C9 (amended): whenever a tool invocation exits non-zero the pipeline
aborts immediately — the returned trace contains no later invocation —
with an error whose message identifies the failing stage, and the
returned staging state is exactly the state the completed stages
produced (artifacts are left, no rollback).  For the first six tool
stages the error carries the tool's captured standard-error text; the
signing stage configures the child's streams as inherited, so nothing is
captured and its error carries an empty diagnostic instead of the
signer's standard-error text (the deviation from the original claim). -/
theorem c9_tool_failure_aborts :
    (∀ (m : Manifest) (env : EnvMap) (cp : String) (dk : KeystoreMeta)
      (profile : Profile) (aj : String) (prior : List (String × Node)) (o : Oracle),
      o.unpackOk = false →
      create_from_apk m env cp dk profile aj prior o
        = (.error (.toolFailed "Failed to unpack apk" o.unpackErr),
           ⟨(startState prior).fs, [unpackInv m]⟩))
    ∧ (∀ (m : Manifest) (env : EnvMap) (cp : String) (dk : KeystoreMeta)
      (profile : Profile) (aj : String) (prior : List (String × Node)) (o : Oracle),
      o.unpackOk = true → o.compileOk = false →
      create_from_apk m env cp dk profile aj prior o
        = (.error (.toolFailed "Failed to compile resources" o.compileErr),
           ⟨(startState prior).fs.setPath ["unpacked-apk"] o.unpackedTree,
            [unpackInv m, compileInv]⟩))
    ∧ (∀ (m : Manifest) (env : EnvMap) (cp : String) (dk : KeystoreMeta)
      (profile : Profile) (aj : String) (prior : List (String × Node)) (o : Oracle),
      o.unpackOk = true → o.compileOk = true → o.linkOk = false →
      create_from_apk m env cp dk profile aj prior o
        = (.error (.toolFailed "Failed to link resources" o.linkErr),
           ⟨((startState prior).fs.setPath ["unpacked-apk"] o.unpackedTree).setPath
              ["res.zip"] (.file o.resZipData),
            [unpackInv m, compileInv, linkInv m aj]⟩))
    ∧ (∀ (m : Manifest) (env : EnvMap) (cp : String) (dk : KeystoreMeta)
      (profile : Profile) (aj : String) (prior : List (String × Node)) (o : Oracle),
      o.unpackOk = true → o.compileOk = true → o.linkOk = true → o.unzipOk = false →
      create_from_apk m env cp dk profile aj prior o
        = (.error (.toolFailed "Failed to unzip base.zip" o.unzipErr),
           ⟨mkBundleDirs ((((startState prior).fs.setPath ["unpacked-apk"]
                o.unpackedTree).setPath ["res.zip"] (.file o.resZipData)).setPath
                ["base.zip"] (.archive false o.linkedEntries)),
            [unpackInv m, compileInv, linkInv m aj, unzipInv]⟩))
    ∧ (∀ (m : Manifest) (env : EnvMap) (cp : String) (dk : KeystoreMeta)
      (profile : Profile) (aj : String) (prior : List (String × Node)) (o : Oracle)
      (s5 : St),
      o.unpackOk = true → o.compileOk = true → o.linkOk = true → o.unzipOk = true →
      stageRestage (preRestageState m aj prior o) = (.ok (), s5) →
      o.jarOk = false →
      create_from_apk m env cp dk profile aj prior o
        = (.error (.toolFailed "Failed to create bundle.zip" o.jarErr),
           ⟨s5.fs, s5.trace ++ [jarInv]⟩))
    ∧ (∀ (m : Manifest) (env : EnvMap) (cp : String) (dk : KeystoreMeta)
      (profile : Profile) (aj : String) (prior : List (String × Node)) (o : Oracle)
      (s5 : St),
      o.unpackOk = true → o.compileOk = true → o.linkOk = true → o.unzipOk = true →
      stageRestage (preRestageState m aj prior o) = (.ok (), s5) →
      o.jarOk = true → o.bundletoolOk = false →
      create_from_apk m env cp dk profile aj prior o
        = (.error (.toolFailed "Failed to build bundle" o.bundletoolErr),
           ⟨s5.fs.setPath ["bundle", "bundle.zip"] (mkBundleZip s5.fs),
            s5.trace ++ [jarInv, buildBundleInv m]⟩))
    ∧ (∀ (m : Manifest) (env : EnvMap) (cp : String) (dk : KeystoreMeta)
      (profile : Profile) (aj : String) (prior : List (String × Node)) (o : Oracle)
      (s5 : St) (key : KeystoreMeta),
      o.unpackOk = true → o.compileOk = true → o.linkOk = true → o.unzipOk = true →
      stageRestage (preRestageState m aj prior o) = (.ok (), s5) →
      o.jarOk = true → o.bundletoolOk = true →
      (AabBuilder.read_keystore_meta env m.signing profile cp false dk).result
        = .ok key →
      o.signOk = false →
      create_from_apk m env cp dk profile aj prior o
        = (.error (.toolFailed "Failed to sign aab" ""),
           ⟨(s5.fs.setPath ["bundle", "bundle.zip"] (mkBundleZip s5.fs)).setPath
              [unsignedAabName m]
              (.archive false [("base",
                ((s5.fs.setPath ["bundle", "bundle.zip"] (mkBundleZip s5.fs)).lookupPath
                  ["bundle", "bundle.zip"]).getD (.dir []))]),
            s5.trace ++ [jarInv, buildBundleInv m, signInv m key]⟩)) := by
  refine ⟨?_, ?_, ?_, ?_, ?_, ?_, ?_⟩
  · intro m env cp dk profile aj prior o h1
    simp [create_from_apk, stageUnpack, stepTool, andThen, h1, capturedStderr,
      startState]
  · intro m env cp dk profile aj prior o h1 h2
    simp [create_from_apk, stageUnpack, stageCompile, stepTool, andThen, h1, h2,
      capturedStderr, startState]
  · intro m env cp dk profile aj prior o h1 h2 h3
    simp [create_from_apk, stageUnpack, stageCompile, stageLink, stepTool,
      andThen, h1, h2, h3, capturedStderr, startState]
  · intro m env cp dk profile aj prior o h1 h2 h3 h4
    simp [create_from_apk, stageUnpack, stageCompile, stageLink, stageUnzip,
      stepTool, andThen, h1, h2, h3, h4, capturedStderr, startState]
  · intro m env cp dk profile aj prior o s5 h1 h2 h3 h4 hres h5
    simp only [preRestageState, startState] at hres
    simp [create_from_apk, stageUnpack, stageCompile, stageLink, stageUnzip,
      stageJar, stepTool, andThen, h1, h2, h3, h4, h5, capturedStderr, hres,
      startState]
  · intro m env cp dk profile aj prior o s5 h1 h2 h3 h4 hres h5 h6
    simp only [preRestageState, startState] at hres
    simp [create_from_apk, stageUnpack, stageCompile, stageLink, stageUnzip,
      stageJar, stageBundleTool, stepTool, andThen, h1, h2, h3, h4, h5, h6,
      capturedStderr, hres, startState]
  · intro m env cp dk profile aj prior o s5 key h1 h2 h3 h4 hres h5 h6 hkey h7
    simp only [preRestageState, startState] at hres
    simp [create_from_apk, stageUnpack, stageCompile, stageLink, stageUnzip,
      stageJar, stageBundleTool, stageSign, stepTool, andThen, h1, h2, h3, h4,
      h5, h6, h7, capturedStderr, hres, hkey, startState]

/-- C9 witness: the scenario run in which only the jarsigner fails (with
stderr "boom") — the pipeline aborts at the signing stage, the error
identifies the stage but carries the empty captured diagnostic, the
three final invocations close the trace, and the staging state keeps all
earlier artifacts. -/
theorem c9_witness :
    create_from_apk c6cfg env0 "/proj" dkConc .release "android.jar" [] c9wOracle
      = (.error (.toolFailed "Failed to sign aab" ""),
         ⟨(c9wState.fs.setPath ["bundle", "bundle.zip"] (mkBundleZip c9wState.fs)).setPath
            [unsignedAabName c6cfg]
            (.archive false [("base",
              ((c9wState.fs.setPath ["bundle", "bundle.zip"]
                (mkBundleZip c9wState.fs)).lookupPath
                ["bundle", "bundle.zip"]).getD (.dir []))]),
          c9wState.trace ++ [jarInv, buildBundleInv c6cfg, signInv c6cfg c9wKey]⟩) :=
  c9_tool_failure_aborts.2.2.2.2.2.2 c6cfg env0 "/proj" dkConc .release
    "android.jar" [] c9wOracle c9wState c9wKey rfl rfl rfl rfl rfl rfl rfl rfl rfl

/-- C9 counterexample: the jarsigner fails with the diagnostic "keystore
was tampered with" on its stderr, but the pipeline's error carries the
empty string — not the tool's standard-error text — because the signer's
stderr is inherited rather than captured. -/
theorem c9_counterexample :
    c9ceOracle.signErr = "keystore was tampered with"
    ∧ c9ceRun.1 = .error (.toolFailed "Failed to sign aab" "")
    ∧ ("" : String) ≠ "keystore was tampered with" :=
  ⟨rfl, rfl, by decide⟩

/-- C10: the two credential-resolution routines — the translation of
`ApkBuilder::read_keystore_meta` and the translation of
`AabBuilder::read_keystore_meta` — agree on every input: same
environment, signing map, profile, crate path, debug-fallback flag and
debug key give the same result and the same diagnostics. -/
theorem c10_resolvers_identical :
    ∀ (env : EnvMap) (signing : List (String × Signing)) (profile : Profile)
      (cp : String) (is_debug : Bool) (dk : KeystoreMeta),
      ApkBuilder.read_keystore_meta env signing profile cp is_debug dk
        = AabBuilder.read_keystore_meta env signing profile cp is_debug dk :=
  fun _ _ _ _ _ _ => rfl

/-- C1 witness: at the counterexample's input the amended failure
condition is false, and applying the characterization yields a
credential. -/
theorem c1_witness :
    ∃ c, (ApkBuilder.read_keystore_meta env0 c1Signing .dev "/proj" false dkConc).result
      = .ok c :=
  (c1_missing_release_key_characterization env0 c1Signing .dev "/proj" false dkConc).2 rfl
